import Mathlib

/-!
Shallow embedding of the scroll prover agent (`prover/prover.go`, `Prover`)
and the settlement relayer (`Layer2Relayer`) orchestration logic.

Effectful Go procedures are embedded as pure Lean functions from an
explicit environment record (the outcomes of the external calls the
procedure makes: database reads and writes, chain RPC, transaction
sender) to the list of operations the procedure issues, in program
order.  External collaborators (proof engine, coordinator client,
transaction sender, ABI packing, signing) are modelled as oracles:
their results are fields of the environment, so every theorem
quantifies over all possible behaviours of the collaborators.

Machine integers are modelled as `Nat` with explicit `% 2 ^ 64` where
Go `uint64` wrap-around matters (the gas oracle threshold
arithmetic).  Timestamps are modelled as seconds (`Nat`); the
`CreatedAt` difference in the finalize rate limit is nonnegative in
every scenario the claims speak about, so it is embedded as truncated
`Nat` subtraction.
-/

deriving instance DecidableEq for Except

namespace Scroll

/-- message.ProofType: an int in Go; `ProofTypeChunk` and `ProofTypeBatch`
are the two recognised values, everything else hits default branches. -/
inductive ProofType where
  | chunk
  | batch
  | invalid (n : Nat)
deriving DecidableEq, Repr

/-- message.RespStatus of a proof detail: StatusOk or StatusProofError. -/
inductive ProofStatus where
  | ok
  | proofError
deriving DecidableEq, Repr

/-- message.ChunkTaskDetail: the ordered list of block hashes of a chunk
task.  Block hashes are opaque; they are modelled as naturals. -/
structure ChunkTaskDetail where
  blockHashes : List Nat
deriving DecidableEq, Repr

/-- message.BatchTaskDetail: chunk infos plus prior chunk proofs of a
batch task, both opaque payloads here. -/
structure BatchTaskDetail where
  chunkInfos : List Nat
  chunkProofs : List Nat
deriving DecidableEq, Repr

/-- message.TaskMsg: task identifier, proof type and the per-type detail
payloads (pointers in Go, hence `Option`). -/
structure TaskMsg where
  id : String
  type : ProofType
  chunkTaskDetail : Option ChunkTaskDetail
  batchTaskDetail : Option BatchTaskDetail
deriving DecidableEq, Repr

/-- store.ProvingTask: the durable queue record, a task plus its retry
counter `Times`. -/
structure ProvingTask where
  task : TaskMsg
  times : Nat
deriving DecidableEq, Repr

/-- message.ProofDetail: the per-attempt result record.  Proof artifacts
are opaque naturals; `none` models a nil pointer. -/
structure ProofDetail where
  id : String
  type : ProofType
  status : ProofStatus
  error : String
  chunkProof : Option Nat
  batchProof : Option Nat
deriving DecidableEq, Repr

/-- types.BlockTrace, restricted to the only field the prover reads:
`Header.Number.Int64()`. -/
structure BlockTrace where
  number : Int
deriving DecidableEq, Repr

/-- comparison used by the sort.Slice call in getSortedTracesByHashes:
ascending block header number. -/
def traceLE (a b : BlockTrace) : Prop := a.number ≤ b.number

instance : DecidableRel traceLE := fun a b => Int.decLe a.number b.number

instance : IsTotal BlockTrace traceLE := ⟨fun a b => Int.le_total a.number b.number⟩

instance : IsTrans BlockTrace traceLE := ⟨fun _ _ _ => Int.le_trans⟩

/-- getSortedTracesByHashes: fetch the trace of every block hash in
order from the chain endpoint (`fetch` is the GetBlockTraceByHash
oracle), failing on the first fetch error, then sort the traces by
ascending header number (sort.Slice: any sorted permutation; embedded
as insertion sort). -/
def getSortedTracesByHashes (fetch : Nat → Except String BlockTrace)
    (blockHashes : List Nat) : Except String (List BlockTrace) :=
  match blockHashes.mapM fetch with
  | .error e => .error e
  | .ok traces => .ok (traces.insertionSort traceLE)

/-- proveChunk: reject a task without chunk detail, fetch and sort the
traces, then call the proof engine core (`coreChunk` oracle) on the
ordered traces. -/
def proveChunk (fetch : Nat → Except String BlockTrace)
    (coreChunk : String → List BlockTrace → Except String Nat)
    (task : ProvingTask) : Except String Nat :=
  match task.task.chunkTaskDetail with
  | none => .error "ChunkTaskDetail is empty"
  | some detail =>
    match getSortedTracesByHashes fetch detail.blockHashes with
    | .error _ => .error "get traces from eth node failed"
    | .ok traces => coreChunk task.task.id traces

/-- proveBatch: reject a task without batch detail, then call the proof
engine core (`coreBatch` oracle) on the chunk infos and chunk proofs. -/
def proveBatch (coreBatch : String → List Nat → List Nat → Except String Nat)
    (task : ProvingTask) : Except String Nat :=
  match task.task.batchTaskDetail with
  | none => .error "BatchTaskDetail is empty"
  | some detail => coreBatch task.task.id detail.chunkInfos detail.chunkProofs

/-- prove: build a ProofDetail for the task, dispatching on the
configured proof type OF THE PROVER (`r.Type()`, not the task type): on
engine success install the one matching proof artifact, on engine
failure record StatusProofError with the message, and on an
unrecognised configured type return the detail unchanged (StatusOk,
no artifact). -/
def prove (rType : ProofType)
    (fetch : Nat → Except String BlockTrace)
    (coreChunk : String → List BlockTrace → Except String Nat)
    (coreBatch : String → List Nat → List Nat → Except String Nat)
    (task : ProvingTask) : ProofDetail :=
  let base : ProofDetail :=
    { id := task.task.id, type := task.task.type, status := .ok,
      error := "", chunkProof := none, batchProof := none }
  match rType with
  | .chunk =>
    match proveChunk fetch coreChunk task with
    | .error e => { base with status := .proofError, error := e }
    | .ok proof => { base with chunkProof := some proof }
  | .batch =>
    match proveBatch coreBatch task with
    | .error e => { base with status := .proofError, error := e }
    | .ok proof => { base with batchProof := some proof }
  | .invalid _ => base

/-- ProofDetail synthesized for a poisoned task (Times > 2): fixed
error text, no proving attempted, no artifact. -/
def poisonedDetail (task : ProvingTask) : ProofDetail :=
  { id := task.task.id, type := task.task.type, status := .proofError,
    error := "zk proving panic", chunkProof := none, batchProof := none }

/-- failure modes of stack.Peek: the distinguished store.ErrEmpty versus
any other error. -/
inductive PeekErr where
  | empty
  | other (msg : String)
deriving DecidableEq, Repr

/-- operations proveAndSubmit issues against the durable queue, the
proof engine and the coordinator, in program order. -/
inductive PEvent where
  | updateTimes (id : String) (n : Nat)
  | proveStart (id : String)
  | submit (d : ProofDetail)
  | delete (id : String)
deriving DecidableEq, Repr

/-- environment of one proveAndSubmit invocation: outcomes of the
external calls it may make. -/
structure ProverEnv where
  peekRes : Except PeekErr ProvingTask
  fetchTaskRes : Except String ProvingTask
  updateTimesRes : Except String Unit
  fetch : Nat → Except String BlockTrace
  coreChunk : String → List BlockTrace → Except String Nat
  coreBatch : String → List Nat → List Nat → Except String Nat
  submitRes : ProofDetail → Except String Unit

/-- task resolution at the top of proveAndSubmit: Peek the durable
queue; only on store.ErrEmpty fall back to fetching a fresh task from
the coordinator; any other peek error aborts the iteration. -/
def resolveTask (env : ProverEnv) : Except String ProvingTask :=
  match env.peekRes with
  | .ok task => .ok task
  | .error .empty => env.fetchTaskRes
  | .error (.other msg) => .error msg

/-- proveAndSubmit: resolve a task; if its retry counter Times is at
most 2, persist Times+1 to the queue (aborting on write failure)
and run prove; otherwise synthesize the poisoned ProofDetail without
proving.  Then (with the queue deletion deferred to run after
submission, whatever its outcome) sign and submit the detail.
Returns the issued operations in order and the Go return value. -/
def proveAndSubmit (rType : ProofType) (env : ProverEnv) :
    List PEvent × Except String Unit :=
  match resolveTask env with
  | .error e => ([], .error e)
  | .ok task =>
    if task.times ≤ 2 then
      match env.updateTimesRes with
      | .error e => ([.updateTimes task.task.id (task.times + 1)], .error e)
      | .ok _ =>
        let d := prove rType env.fetch env.coreChunk env.coreBatch task
        ([.updateTimes task.task.id (task.times + 1),
          .proveStart task.task.id, .submit d, .delete task.task.id],
         env.submitRes d)
    else
      let d := poisonedDetail task
      ([.submit d, .delete task.task.id], env.submitRes d)

/-- recogniser for queue-deletion events of a given task id. -/
def PEvent.isDeleteOf (id : String) : PEvent → Bool
  | .delete i => i == id
  | _ => false

/-- recogniser for prove invocations of a given task id. -/
def PEvent.isProveStartOf (id : String) : PEvent → Bool
  | .proveStart i => i == id
  | _ => false

/-- recogniser for any prove invocation. -/
def PEvent.isProveStart : PEvent → Bool
  | .proveStart _ => true
  | _ => false

/-- predicate of ProofDetail: exactly one of chunkProof/batchProof is
populated. -/
def exactlyOnePopulated (d : ProofDetail) : Bool :=
  (d.chunkProof.isSome && d.batchProof.isNone) ||
    (d.chunkProof.isNone && d.batchProof.isSome)

/-- predicate of ProofDetail: at most one of chunkProof/batchProof is
populated. -/
def atMostOnePopulated (d : ProofDetail) : Bool :=
  !(d.chunkProof.isSome && d.batchProof.isSome)

/-- predicate of ProofDetail: any populated proof field is the one
selected by the given proof type. -/
def populatedMatches (t : ProofType) (d : ProofDetail) : Bool :=
  (d.chunkProof.isNone || decide (t = ProofType.chunk)) &&
    (d.batchProof.isNone || decide (t = ProofType.batch))

/-! ## Settlement relayer (Layer2Relayer) -/

/-- types.ProvingStatus values read by the relayer. -/
inductive ProvingStatus where
  | unassigned
  | assigned
  | proved
  | verified
  | failed
  | skipped
  | other (n : Nat)
deriving DecidableEq, Repr

/-- types.RollupStatus values written by the relayer. -/
inductive RollupStatus where
  | pending
  | committing
  | committed
  | commitFailed
  | finalizing
  | finalized
  | finalizeFailed
  | finalizationSkipped
deriving DecidableEq, Repr

/-- types.GasOracleStatus values read and written by the gas oracle
updater. -/
inductive GasOracleStatus where
  | pending
  | importing
  | imported
  | failed
deriving DecidableEq, Repr

/-- sender failure modes the relayer distinguishes:
sender.ErrNoAvailableAccount and sender.ErrFullPending are swallowed
as backpressure, everything else is logged; neither mutates state. -/
inductive SendErr where
  | noAvailableAccount
  | fullPending
  | other (msg : String)
deriving DecidableEq, Repr

/-- database failure modes the finalize path distinguishes: the
literal "sql: no rows in result set" versus any other error. -/
inductive DbErr where
  | noRows
  | other (msg : String)
deriving DecidableEq, Repr

/-- types.BlockBatch restricted to the fields ProcessCommittedBatches
reads: hash, proving status and creation time (unix seconds). -/
structure BlockBatch where
  hash : String
  provingStatus : ProvingStatus
  createdAt : Nat
deriving DecidableEq, Repr

/-! ### uint64 arithmetic -/

/-- the modulus of Go uint64. -/
def u64 : Nat := 2 ^ 64

/-- uint64 addition with wrap-around. -/
def uadd (a b : Nat) : Nat := (a + b) % u64

/-- uint64 subtraction with wrap-around (arguments reduced mod 2^64). -/
def usub (a b : Nat) : Nat := (a % u64 + (u64 - b % u64)) % u64

/-- uint64 multiplication with wrap-around. -/
def umul (a b : Nat) : Nat := a * b % u64

/-! ### Gas-price oracle updater (ProcessGasPriceOracle)

The constant `gasPriceDiffPrecision` is defined elsewhere in the
repository (outside the given source file), so `prec` is kept as an
explicit parameter throughout. -/

/-- the update trigger evaluated by ProcessGasPriceOracle, transcribed
from the source: expectedDelta is `lastGasPrice * gasPriceDiff /
gasPriceDiffPrecision` in uint64 arithmetic, and the update fires when
the last price is zero, or the suggested price is at least the floor
and lies at or beyond `lastGasPrice ± expectedDelta`, both bounds
computed with uint64 wrap-around. -/
def shouldUpdateGasPrice (lastGasPrice minGasPrice gasPriceDiff prec suggest : Nat) :
    Bool :=
  let expectedDelta := umul lastGasPrice gasPriceDiff / prec
  lastGasPrice == 0 ||
    (minGasPrice ≤ suggest &&
      (uadd lastGasPrice expectedDelta ≤ suggest ||
        suggest ≤ usub lastGasPrice expectedDelta))

/-- absolute difference of naturals. -/
def absDiff (a b : Nat) : Nat := (a - b) + (b - a)

/-- update condition as the claim states it (spec wording, for
comparison against `shouldUpdateGasPrice`): `lastPrice == 0` or
(`newPrice ≥ minPrice` and `|newPrice − lastPrice| ≥
lastPrice*diffRatio/precision`), the threshold product taken in
unsigned 64-bit arithmetic as the claim says. -/
def specGasUpdateCondition (lastGasPrice minGasPrice gasPriceDiff prec suggest : Nat) :
    Bool :=
  lastGasPrice == 0 ||
    (minGasPrice ≤ suggest &&
      umul lastGasPrice gasPriceDiff / prec ≤ absDiff suggest lastGasPrice)

/-- latest batch as seen by the gas oracle updater: hash and oracle
status. -/
structure GasBatch where
  hash : String
  oracleStatus : GasOracleStatus
deriving DecidableEq, Repr

/-- operations ProcessGasPriceOracle issues. -/
inductive OEvent where
  | sendGasTx (id : String) (price : Nat)
  | updateOracleStatus (hash : String) (st : GasOracleStatus) (tx : String)
deriving DecidableEq, Repr

/-- environment of one ProcessGasPriceOracle invocation. -/
structure OracleEnv where
  latestBatchRes : Except String GasBatch
  suggestRes : Except String Nat
  packOK : Bool
  sendRes : Except SendErr String
  updateOracleRes : Except String Unit
deriving DecidableEq, Repr

/-- ProcessGasPriceOracle: on the latest batch with a Pending oracle
status, fetch the suggested gas price (as uint64), evaluate the
threshold rule, and on trigger pack and send the setL2BaseFee
transaction with the batch hash as correlation ID; on send success
issue the `{Importing, txHash}` status write and, if that write
succeeded, replace the process-local last applied price.  Returns the
issued operations and the new lastGasPrice. -/
def processGasPriceOracle (minGasPrice gasPriceDiff prec lastGasPrice : Nat)
    (env : OracleEnv) : List OEvent × Nat :=
  match env.latestBatchRes with
  | .error _ => ([], lastGasPrice)
  | .ok batch =>
    if batch.oracleStatus = .pending then
      match env.suggestRes with
      | .error _ => ([], lastGasPrice)
      | .ok suggest =>
        if shouldUpdateGasPrice lastGasPrice minGasPrice gasPriceDiff prec suggest then
          if env.packOK then
            match env.sendRes with
            | .error _ => ([.sendGasTx batch.hash suggest], lastGasPrice)
            | .ok txh =>
              match env.updateOracleRes with
              | .error _ =>
                ([.sendGasTx batch.hash suggest,
                  .updateOracleStatus batch.hash .importing txh], lastGasPrice)
              | .ok _ =>
                ([.sendGasTx batch.hash suggest,
                  .updateOracleStatus batch.hash .importing txh], suggest)
          else ([], lastGasPrice)
        else ([], lastGasPrice)
    else ([], lastGasPrice)

/-- recogniser for gas-price send events. -/
def OEvent.isSendGas : OEvent → Bool
  | .sendGasTx _ _ => true
  | _ => false

/-- a gas-price update transaction was sent (SendTransaction invoked)
during the invocation. -/
def sentGasUpdate (evs : List OEvent) : Bool := evs.any OEvent.isSendGas

/-! ### Batch commit submitter (SendCommitTx) -/

/-- types.BatchData restricted to what SendCommitTx uses: the batch
hash (`batch.Hash()`) and index (logged only). -/
structure CommitBatchData where
  hash : String
  batchIndex : Nat
deriving DecidableEq, Repr

/-- operations SendCommitTx issues. -/
inductive CEvent where
  | sendCommitTx (id : String)
  | updateCommitTxHash (hash : String) (tx : String) (st : RollupStatus)
  | storeCommitment (id : String) (hashes : List String)
deriving DecidableEq, Repr

/-- environment of one SendCommitTx invocation: the correlation ID
(`crypto.Keccak256Hash` over the concatenated batch hashes — external
crypto, kept as an oracle value), the commitBatches ABI pack outcome,
and the SendTransaction outcome. -/
structure CommitEnv where
  txID : String
  packCommitOK : Bool
  sendRes : Except SendErr String
deriving DecidableEq, Repr

/-- SendCommitTx: a no-op on empty input; otherwise pack the
commitBatches call (abort on pack error), send it with the computed
correlation ID, and only after the send has returned a transaction
hash issue the `{Committing, txHash}` status write for every batch in
the list and the single commit-registry insertion keyed by the
correlation ID. -/
def sendCommitTx (env : CommitEnv) (batchData : List CommitBatchData) :
    List CEvent :=
  match batchData with
  | [] => []
  | _ :: _ =>
    if env.packCommitOK then
      match env.sendRes with
      | .error _ => [.sendCommitTx env.txID]
      | .ok txh =>
        .sendCommitTx env.txID ::
          (batchData.map fun b => .updateCommitTxHash b.hash txh .committing) ++
          [.storeCommitment env.txID (batchData.map fun b => b.hash)]
    else []

/-- recogniser for commit-path state mutations: rollup status writes
and commit-registry insertions. -/
def CEvent.isCommitWrite : CEvent → Bool
  | .updateCommitTxHash _ _ _ => true
  | .storeCommitment _ _ => true
  | _ => false

/-! ### Batch finalize submitter (ProcessCommittedBatches) -/

/-- operations ProcessCommittedBatches issues. -/
inductive REvent where
  | updateSkippedBatches
  | updateRollupStatus (hash : String) (st : RollupStatus)
  | sendFinalizeTx (id : String)
  | updateFinalizeTxHash (hash : String) (tx : String) (st : RollupStatus)
  | storeFinalization (id : String) (hash : String)
deriving DecidableEq, Repr

/-- environment of one ProcessCommittedBatches invocation: outcomes of
the database reads, the finalizeBatchWithProof ABI pack and the
SendTransaction call.  Proof and instance-commitment buffers are byte
lists. -/
structure FinalizeEnv where
  getCommittedRes : Except String (List String)
  getBatchRes : Except String (List BlockBatch)
  prevRes : Except DbErr BlockBatch
  finalizeIntervalSec : Nat
  proofRes : Except String (Option (List Nat) × Option (List Nat))
  packFinalizeOK : Bool
  sendRes : Except SendErr String
deriving DecidableEq, Repr

/-- the committed batch ProcessCommittedBatches operates on: the first
hash returned by GetCommittedBatches(1) together with its BlockBatch
row, when both lookups return data. -/
def resolvedBatch (env : FinalizeEnv) : Option (String × BlockBatch) :=
  match env.getCommittedRes with
  | .error _ => none
  | .ok [] => none
  | .ok (hash :: _) =>
    match env.getBatchRes with
    | .error _ => none
    | .ok [] => none
    | .ok (batch :: _) => some (hash, batch)

/-- the stored buffers fail the presence or word-size checks of the
finalize path: either buffer missing, or either byte length not
divisible by 32. -/
def badBuffers : Option (List Nat) × Option (List Nat) → Bool
  | (none, _) => true
  | (_, none) => true
  | (some pb, some ic) => pb.length % 32 != 0 || ic.length % 32 != 0

/-- the Verified branch passes the rate limit and proceeds to the
proof-fetching region: either the previous finalizing/finalized batch
lookup found one created at least the configured interval before this
batch, or the lookup reported the expected empty-history condition
("sql: no rows in result set"). -/
def rateLimitPasses (env : FinalizeEnv) (batch : BlockBatch) : Bool :=
  match env.prevRes with
  | .ok prev => env.finalizeIntervalSec ≤ batch.createdAt - prev.createdAt
  | .error .noRows => true
  | .error (.other _) => false

/-- the region of the Verified branch guarded by the deferred
mark-skipped closure: fetch the stored proof and instance buffers
(abort on error, absence, or byte length not divisible by 32), pack
finalizeBatchWithProof (abort on error), send it with correlation ID
`hash ++ "-finalize"`, and on send success issue the `{Finalizing,
txHash}` write and the finalize-registry insertion.  Returns the
issued operations and the success flag the deferred guard reads. -/
def finalizeBody (env : FinalizeEnv) (hash : String) : List REvent × Bool :=
  match env.proofRes with
  | .error _ => ([], false)
  | .ok (proofBuffer?, icBuffer?) =>
    match proofBuffer?, icBuffer? with
    | some proofBuffer, some icBuffer =>
      if proofBuffer.length % 32 != 0 then ([], false)
      else if icBuffer.length % 32 != 0 then ([], false)
      else if env.packFinalizeOK then
        match env.sendRes with
        | .error _ => ([.sendFinalizeTx (hash ++ "-finalize")], false)
        | .ok txh =>
          ([.sendFinalizeTx (hash ++ "-finalize"),
            .updateFinalizeTxHash hash txh .finalizing,
            .storeFinalization (hash ++ "-finalize") hash], true)
      else ([], false)
    | _, _ => ([], false)

/-- ProcessCommittedBatches: bulk-update stale skipped batches
(continuing regardless of outcome), resolve the oldest committed
batch, and branch on its proving status: not-ready and intermediate
states return; Failed/Skipped issue a FinalizationSkipped write;
Verified applies the rate limit (skip-write and return when the
previous finalizing/finalized batch is too recent, abort on an
unexpected lookup error) and then runs the deferred-guarded finalize
body, appending the FinalizationSkipped write whenever the body did
not reach a successful submission. -/
def processCommittedBatches (env : FinalizeEnv) : List REvent :=
  let e0 : List REvent := [.updateSkippedBatches]
  match resolvedBatch env with
  | none => e0
  | some (hash, batch) =>
    match batch.provingStatus with
    | .unassigned => e0
    | .assigned => e0
    | .proved => e0
    | .failed => e0 ++ [.updateRollupStatus hash .finalizationSkipped]
    | .skipped => e0 ++ [.updateRollupStatus hash .finalizationSkipped]
    | .verified =>
      match env.prevRes with
      | .ok prev =>
        if batch.createdAt - prev.createdAt < env.finalizeIntervalSec then
          e0 ++ [.updateRollupStatus hash .finalizationSkipped]
        else
          let body := finalizeBody env hash
          e0 ++ body.1 ++
            (if body.2 then [] else [.updateRollupStatus hash .finalizationSkipped])
      | .error .noRows =>
        let body := finalizeBody env hash
        e0 ++ body.1 ++
          (if body.2 then [] else [.updateRollupStatus hash .finalizationSkipped])
      | .error (.other _) => e0
    | .other _ => e0

/-- recogniser for finalize transaction submissions. -/
def REvent.isSendFinalize : REvent → Bool
  | .sendFinalizeTx _ => true
  | _ => false

/-- a finalize transaction was submitted (SendTransaction invoked)
during the invocation. -/
def sendsFinalize (evs : List REvent) : Bool := evs.any REvent.isSendFinalize

/-! ### Concrete scenario fixtures

Concrete environments used to instantiate the theorems below on
specific inputs; all external-call outcomes are explicit data. -/

/-- trace-fetch oracle whose trace numbers equal the block hash. -/
def fetchOfHash (h : Nat) : Except String BlockTrace := .ok ⟨(h : Int)⟩

/-- chunk proof engine oracle that always succeeds. -/
def coreChunkOk (_ : String) (_ : List BlockTrace) : Except String Nat := .ok 7

/-- batch proof engine oracle that always succeeds. -/
def coreBatchOk (_ : String) (_ _ : List Nat) : Except String Nat := .ok 9

/-- coordinator submit oracle that always succeeds. -/
def submitOk (_ : ProofDetail) : Except String Unit := .ok ()

/-- chunk task fixture with retry counter 0 whose counter persist
fails. -/
def taskC3 : ProvingTask :=
  { task := { id := "t-c3", type := .chunk,
              chunkTaskDetail := some ⟨[5, 6]⟩, batchTaskDetail := none },
    times := 0 }

/-- environment where the peeked task retry-counter persist fails. -/
def envC3 : ProverEnv :=
  { peekRes := .ok taskC3, fetchTaskRes := .error "unused",
    updateTimesRes := .error "db write failed",
    fetch := fetchOfHash, coreChunk := coreChunkOk, coreBatch := coreBatchOk,
    submitRes := submitOk }

/-- chunk task fixture with retry counter 0. -/
def taskC3w : ProvingTask :=
  { task := { id := "t-c3w", type := .chunk,
              chunkTaskDetail := some ⟨[5, 6]⟩, batchTaskDetail := none },
    times := 0 }

/-- environment where the peeked task retry-counter persist
succeeds. -/
def envC3w : ProverEnv :=
  { peekRes := .ok taskC3w, fetchTaskRes := .error "unused",
    updateTimesRes := .ok (),
    fetch := fetchOfHash, coreChunk := coreChunkOk, coreBatch := coreBatchOk,
    submitRes := submitOk }

/-- chunk task fixture with retry counter 2 (the last allowed
attempt). -/
def taskC4 : ProvingTask :=
  { task := { id := "t-c4", type := .chunk,
              chunkTaskDetail := some ⟨[3]⟩, batchTaskDetail := none },
    times := 2 }

/-- environment for a successful third attempt of a peeked task. -/
def envC4 : ProverEnv :=
  { peekRes := .ok taskC4, fetchTaskRes := .error "unused",
    updateTimesRes := .ok (),
    fetch := fetchOfHash, coreChunk := coreChunkOk, coreBatch := coreBatchOk,
    submitRes := submitOk }

/-- poisoned chunk task fixture with retry counter 3. -/
def taskC5 : ProvingTask :=
  { task := { id := "t-c5", type := .chunk,
              chunkTaskDetail := some ⟨[8]⟩, batchTaskDetail := none },
    times := 3 }

/-- environment holding a poisoned task. -/
def envC5 : ProverEnv :=
  { peekRes := .ok taskC5, fetchTaskRes := .error "unused",
    updateTimesRes := .ok (),
    fetch := fetchOfHash, coreChunk := coreChunkOk, coreBatch := coreBatchOk,
    submitRes := submitOk }

/-- poisoned chunk task fixture with retry counter 4, for the detail
population counterexample. -/
def taskC9 : ProvingTask :=
  { task := { id := "t-c9", type := .chunk,
              chunkTaskDetail := some ⟨[2]⟩, batchTaskDetail := none },
    times := 4 }

/-- environment holding the poisoned task of the detail population
counterexample. -/
def envC9 : ProverEnv :=
  { peekRes := .ok taskC9, fetchTaskRes := .error "unused",
    updateTimesRes := .ok (),
    fetch := fetchOfHash, coreChunk := coreChunkOk, coreBatch := coreBatchOk,
    submitRes := submitOk }

/-- gas oracle environment for the wrap-around counterexample: latest
batch pending, suggested price 2. -/
def envC2 : OracleEnv :=
  { latestBatchRes := .ok { hash := "b-c2", oracleStatus := .pending },
    suggestRes := .ok 2, packOK := true, sendRes := .ok "0xc2",
    updateOracleRes := .ok () }

/-- gas oracle environment for the exact-threshold witness: latest
batch pending, suggested price 1100. -/
def envC2w : OracleEnv :=
  { latestBatchRes := .ok { hash := "b-c2w", oracleStatus := .pending },
    suggestRes := .ok 1100, packOK := true, sendRes := .ok "0xc2w",
    updateOracleRes := .ok () }

/-- finalize environment whose stored proof buffer has 33 bytes (not a
multiple of 32), with empty finalize history. -/
def envC1 : FinalizeEnv :=
  { getCommittedRes := .ok ["b-c1"],
    getBatchRes := .ok [{ hash := "b-c1", provingStatus := .verified, createdAt := 1000 }],
    prevRes := .error .noRows,
    finalizeIntervalSec := 0,
    proofRes := .ok (some (List.replicate 33 0), some (List.replicate 32 0)),
    packFinalizeOK := true,
    sendRes := .ok "0xc1" }

/-- finalize environment whose stored proof buffer is missing, with
empty finalize history. -/
def envC1w : FinalizeEnv :=
  { getCommittedRes := .ok ["b-c1w"],
    getBatchRes := .ok [{ hash := "b-c1w", provingStatus := .verified, createdAt := 1000 }],
    prevRes := .error .noRows,
    finalizeIntervalSec := 0,
    proofRes := .ok (none, some (List.replicate 32 0)),
    packFinalizeOK := true,
    sendRes := .ok "0xc1w" }

/-- finalize environment whose oldest committed batch is only Proved
(received but not verified). -/
def envC6 : FinalizeEnv :=
  { getCommittedRes := .ok ["b-c6"],
    getBatchRes := .ok [{ hash := "b-c6", provingStatus := .proved, createdAt := 500 }],
    prevRes := .error .noRows,
    finalizeIntervalSec := 0,
    proofRes := .ok (some (List.replicate 32 0), some (List.replicate 32 0)),
    packFinalizeOK := true,
    sendRes := .ok "0xc6" }

/-- finalize environment where the previous batch was created 30
seconds before a Verified batch, under a 60-second minimum interval. -/
def envC7 : FinalizeEnv :=
  { getCommittedRes := .ok ["b-c7"],
    getBatchRes := .ok [{ hash := "b-c7", provingStatus := .verified, createdAt := 130 }],
    prevRes := .ok { hash := "b-prev", provingStatus := .verified, createdAt := 100 },
    finalizeIntervalSec := 60,
    proofRes := .ok (some (List.replicate 32 0), some (List.replicate 32 0)),
    packFinalizeOK := true,
    sendRes := .ok "0xc7" }

/-- commit environment whose SendTransaction call succeeds. -/
def envC10 : CommitEnv :=
  { txID := "0xid10", packCommitOK := true, sendRes := .ok "0xc10" }

/-- two-batch commit payload fixture. -/
def batchesC10 : List CommitBatchData :=
  [{ hash := "bh1", batchIndex := 1 }, { hash := "bh2", batchIndex := 2 }]

/-- chunk task fixture with retry counter 1, for the detail population
witness. -/
def taskC9w : ProvingTask :=
  { task := { id := "t-c9w", type := .chunk,
              chunkTaskDetail := some ⟨[1]⟩, batchTaskDetail := none },
    times := 1 }

/-- chunk proof engine oracle that always fails, for the error-detail
side of the detail population witness. -/
def coreChunkErr (_ : String) (_ : List BlockTrace) : Except String Nat :=
  .error "proof engine panic"

/-! ## Theorems -/

/-- C3 counterexample: a peeked task with retry counter 0 whose
retry-counter persist fails is never deleted from the queue in that
invocation, refuting deletion "regardless of whether the
retry-counter update ... succeeds or fails". -/
theorem taskDeletedOnce_counterexample :
    envC3.peekRes = .ok taskC3 ∧ taskC3.times = 0 ∧
      (proveAndSubmit .chunk envC3).1.countP (PEvent.isDeleteOf "t-c3") = 0 := by
  decide

/-- C3 (amended): a task dequeued (peeked) from the durable queue is
deleted from the queue exactly once before the invocation returns,
regardless of the proving or submission outcome, provided the
retry-counter persist (required when the counter is at most 2)
succeeds; if that persist fails, the invocation returns early without
deleting the task. -/
theorem taskDeletedOncePerDequeue (rType : ProofType) (env : ProverEnv)
    (task : ProvingTask)
    (h : env.peekRes = .ok task)
    (hupd : task.times ≤ 2 → env.updateTimesRes = .ok ()) :
    (proveAndSubmit rType env).1.countP (PEvent.isDeleteOf task.task.id) = 1 := by
  have hres : resolveTask env = .ok task := by
    unfold resolveTask
    rw [h]
  by_cases hle : task.times ≤ 2
  · simp [proveAndSubmit, hres, hle, hupd hle, PEvent.isDeleteOf]
  · simp [proveAndSubmit, hres, hle, PEvent.isDeleteOf]

/-- C3 witness: the amended deletion discipline evaluated on a
concrete peeked task whose counter persist succeeds. -/
theorem taskDeletedOncePerDequeue_witness :
    (proveAndSubmit .chunk envC3w).1.countP (PEvent.isDeleteOf "t-c3w") = 1 :=
  taskDeletedOncePerDequeue .chunk envC3w taskC3w rfl (fun _ => rfl)

/-- C4 (confirmed): for a task with retry counter at most 2, the
incremented counter is persisted to the durable queue before the
proving call starts, and no proving call ever happens unless that
persist succeeded. -/
theorem retryCounterPersistedBeforeProving (rType : ProofType) (env : ProverEnv)
    (task : ProvingTask)
    (h : resolveTask env = .ok task) (hle : task.times ≤ 2) :
    (env.updateTimesRes = .ok () →
      (proveAndSubmit rType env).1 =
        [.updateTimes task.task.id (task.times + 1),
         .proveStart task.task.id,
         .submit (prove rType env.fetch env.coreChunk env.coreBatch task),
         .delete task.task.id]) ∧
    ((proveAndSubmit rType env).1.any (PEvent.isProveStartOf task.task.id) = true →
      env.updateTimesRes = .ok ()) := by
  constructor
  · intro hu
    simp [proveAndSubmit, h, hle, hu]
  · intro hany
    cases hu : env.updateTimesRes with
    | ok u => cases u; rfl
    | error e =>
      simp [proveAndSubmit, h, hle, hu, PEvent.isProveStartOf] at hany

/-- C4 witness: the third (last allowed) attempt of a concrete peeked
task persists counter 3 before proving. -/
theorem retryCounterPersistedBeforeProving_witness :
    (proveAndSubmit .chunk envC4).1 =
      [.updateTimes "t-c4" 3,
       .proveStart "t-c4",
       .submit { id := "t-c4", type := .chunk, status := .ok, error := "",
                 chunkProof := some 7, batchProof := none },
       .delete "t-c4"] :=
  (retryCounterPersistedBeforeProving .chunk envC4 taskC4 rfl (by decide)).1 rfl

/-- C5 (confirmed): for a task with retry counter above 2 the proof
engine is never invoked, and the synthesized ProofDetail carries
StatusProofError, the fixed "zk proving panic" message, and the
ID and type of the task, with no proof artifact. -/
theorem poisonedTaskSynthesizedFailure (rType : ProofType) (env : ProverEnv)
    (task : ProvingTask)
    (h : resolveTask env = .ok task) (hgt : 2 < task.times) :
    (proveAndSubmit rType env).1.any PEvent.isProveStart = false ∧
    (proveAndSubmit rType env).1 =
      [.submit { id := task.task.id, type := task.task.type, status := .proofError,
                 error := "zk proving panic", chunkProof := none, batchProof := none },
       .delete task.task.id] := by
  have hle : ¬ task.times ≤ 2 := by omega
  simp [proveAndSubmit, h, hle, poisonedDetail, PEvent.isProveStart]

/-- C5 witness: the poisoned-path behaviour evaluated on a concrete
task with retry counter 3. -/
theorem poisonedTaskSynthesizedFailure_witness :
    (proveAndSubmit .chunk envC5).1.any PEvent.isProveStart = false ∧
    (proveAndSubmit .chunk envC5).1 =
      [.submit { id := "t-c5", type := .chunk, status := .proofError,
                 error := "zk proving panic", chunkProof := none, batchProof := none },
       .delete "t-c5"] :=
  poisonedTaskSynthesizedFailure .chunk envC5 taskC5 rfl (by decide)

/-- C8 (confirmed): whenever getSortedTracesByHashes succeeds, the
trace list handed to the proof engine is sorted by ascending block
header number and is a permutation of the per-hash fetch results (one
trace per input hash, in any input order). -/
theorem chunkTracesSortedOnePerHash (fetch : Nat → Except String BlockTrace)
    (blockHashes : List Nat) (fetched traces : List BlockTrace)
    (hm : blockHashes.mapM fetch = .ok fetched)
    (h : getSortedTracesByHashes fetch blockHashes = .ok traces) :
    List.Pairwise (fun a b : BlockTrace => a.number ≤ b.number) traces ∧
      traces.Perm fetched := by
  unfold getSortedTracesByHashes at h
  rw [hm] at h
  injection h with h
  subst h
  exact ⟨List.sorted_insertionSort traceLE fetched,
    List.perm_insertionSort traceLE fetched⟩

/-- C8 witness: three block hashes delivered out of height order come
back sorted ascending, one trace per hash. -/
theorem chunkTracesSortedOnePerHash_witness :
    List.Pairwise (fun a b : BlockTrace => a.number ≤ b.number)
      [{ number := 1 }, { number := 3 }, { number := 4 }] ∧
    List.Perm (α := BlockTrace)
      [{ number := 1 }, { number := 3 }, { number := 4 }]
      [{ number := 4 }, { number := 1 }, { number := 3 }] :=
  chunkTracesSortedOnePerHash fetchOfHash [4, 1, 3]
    [{ number := 4 }, { number := 1 }, { number := 3 }]
    [{ number := 1 }, { number := 3 }, { number := 4 }]
    (by decide) (by decide)

/-- C9 counterexample: the ProofDetail produced for a poisoned task
attempt populates neither chunkProof nor batchProof, refuting "exactly
one of chunkProof/batchProof populated" for every attempt. -/
theorem proofDetailPopulationCounterexample :
    PEvent.submit { id := "t-c9", type := .chunk, status := .proofError,
                    error := "zk proving panic", chunkProof := none,
                    batchProof := none }
      ∈ (proveAndSubmit .chunk envC9).1 ∧
    exactlyOnePopulated { id := "t-c9", type := .chunk, status := .proofError,
                          error := "zk proving panic", chunkProof := none,
                          batchProof := none } = false := by
  decide

/-- C9 (amended): every ProofDetail produced for a task attempt has at
most one of chunkProof/batchProof populated, and a populated field
always matches the configured prover proof type; exactly one field is
populated precisely when the status is Ok and the configured type is
chunk or batch, while error details (status ProofError) and poisoned
details populate neither field. -/
theorem proofDetailPopulation (rType : ProofType)
    (fetch : Nat → Except String BlockTrace)
    (coreChunk : String → List BlockTrace → Except String Nat)
    (coreBatch : String → List Nat → List Nat → Except String Nat)
    (task : ProvingTask) :
    atMostOnePopulated (prove rType fetch coreChunk coreBatch task) = true ∧
    populatedMatches rType (prove rType fetch coreChunk coreBatch task) = true ∧
    (exactlyOnePopulated (prove rType fetch coreChunk coreBatch task) = true ↔
      ((prove rType fetch coreChunk coreBatch task).status = .ok ∧
        (rType = .chunk ∨ rType = .batch))) ∧
    ((prove rType fetch coreChunk coreBatch task).status = .proofError →
      (prove rType fetch coreChunk coreBatch task).chunkProof = none ∧
        (prove rType fetch coreChunk coreBatch task).batchProof = none) ∧
    ((poisonedDetail task).chunkProof = none ∧
      (poisonedDetail task).batchProof = none) := by
  cases rType with
  | chunk =>
    cases hc : proveChunk fetch coreChunk task <;>
      simp [prove, hc, atMostOnePopulated, populatedMatches, exactlyOnePopulated,
        poisonedDetail]
  | batch =>
    cases hb : proveBatch coreBatch task <;>
      simp [prove, hb, atMostOnePopulated, populatedMatches, exactlyOnePopulated,
        poisonedDetail]
  | invalid n =>
    simp [prove, atMostOnePopulated, populatedMatches, exactlyOnePopulated,
      poisonedDetail]

/-- C9 witness: the amended population invariant evaluated on a
successful chunk attempt (exactly one field populated), on a failed
chunk attempt (neither field populated) and on a poisoned detail
(neither field populated). -/
theorem proofDetailPopulation_witness :
    exactlyOnePopulated (prove .chunk fetchOfHash coreChunkOk coreBatchOk taskC9w) = true ∧
    ((prove .chunk fetchOfHash coreChunkErr coreBatchOk taskC9w).chunkProof = none ∧
      (prove .chunk fetchOfHash coreChunkErr coreBatchOk taskC9w).batchProof = none) ∧
    ((poisonedDetail taskC9w).chunkProof = none ∧
      (poisonedDetail taskC9w).batchProof = none) := by
  have h1 := proofDetailPopulation .chunk fetchOfHash coreChunkOk coreBatchOk taskC9w
  have h2 := proofDetailPopulation .chunk fetchOfHash coreChunkErr coreBatchOk taskC9w
  exact ⟨h1.2.2.1.mpr ⟨by decide, Or.inl rfl⟩,
    h2.2.2.2.1 (by decide), h1.2.2.2.2⟩

/-- C2 counterexample: with lastPrice 1, diffRatio 3000000 and
precision 1000000 the threshold is 3, so `lastPrice − delta`
wraps around in uint64 and the code sends an update for suggested
price 2 even though |2 − 1| = 1 < 3, refuting the claimed
absolute-difference characterisation. -/
theorem gasOracleTriggerCounterexample :
    sentGasUpdate (processGasPriceOracle 0 3000000 1000000 1 envC2).1 = true ∧
    specGasUpdateCondition 1 0 3000000 1000000 2 = false := by
  decide

/-- wrap-around uint64 subtraction agrees with truncated subtraction
when the subtrahend is at most the minuend and the minuend fits in 64
bits. -/
theorem usub_eq_of_le (a b : Nat) (ha : a < u64) (hba : b ≤ a) :
    usub a b = a - b := by
  have hb : b < u64 := lt_of_le_of_lt hba ha
  unfold usub
  rw [Nat.mod_eq_of_lt ha, Nat.mod_eq_of_lt hb]
  have h1 : a + (u64 - b) = (a - b) + u64 := by omega
  rw [h1, Nat.add_mod_right, Nat.mod_eq_of_lt (by omega)]

/-- C2 (amended): on a latest batch with Pending oracle status and a
fetched suggested price, a gas-price update transaction is sent iff
the wrap-around uint64 condition holds; whenever the threshold
product does not overflow, the threshold is at most lastPrice, and
lastPrice plus the threshold stays below 2^64, that condition equals
the claimed rule lastPrice == 0 ∨ (newPrice ≥ minPrice ∧
|newPrice − lastPrice| ≥ lastPrice*diffRatio/precision), including
exact-threshold boundary values. -/
theorem gasOracleUpdateTrigger (minGasPrice gasPriceDiff prec lastGasPrice suggest : Nat)
    (env : OracleEnv) (batch : GasBatch)
    (hb : env.latestBatchRes = .ok batch)
    (hst : batch.oracleStatus = .pending)
    (hs : env.suggestRes = .ok suggest)
    (hpack : env.packOK = true)
    (hlast : lastGasPrice < u64)
    (hmul : lastGasPrice * gasPriceDiff < u64)
    (hdle : lastGasPrice * gasPriceDiff / prec ≤ lastGasPrice)
    (hadd : lastGasPrice + lastGasPrice * gasPriceDiff / prec < u64) :
    sentGasUpdate (processGasPriceOracle minGasPrice gasPriceDiff prec lastGasPrice env).1 =
      specGasUpdateCondition lastGasPrice minGasPrice gasPriceDiff prec suggest := by
  have hcond : shouldUpdateGasPrice lastGasPrice minGasPrice gasPriceDiff prec suggest =
      specGasUpdateCondition lastGasPrice minGasPrice gasPriceDiff prec suggest := by
    have husub : usub lastGasPrice (lastGasPrice * gasPriceDiff / prec) =
        lastGasPrice - lastGasPrice * gasPriceDiff / prec :=
      usub_eq_of_le lastGasPrice (lastGasPrice * gasPriceDiff / prec) hlast hdle
    simp only [shouldUpdateGasPrice, specGasUpdateCondition, umul, uadd]
    simp only [Nat.mod_eq_of_lt hmul, Nat.mod_eq_of_lt hadd, husub]
    rw [Bool.eq_iff_iff]
    simp only [Bool.or_eq_true, Bool.and_eq_true, decide_eq_true_eq, beq_iff_eq,
      absDiff]
    omega
  simp only [processGasPriceOracle, hb, hst, reduceIte, hs, hpack, hcond]
  cases hsp : specGasUpdateCondition lastGasPrice minGasPrice gasPriceDiff prec suggest with
  | false => simp [sentGasUpdate]
  | true =>
    cases env.sendRes with
    | error e => simp [sentGasUpdate, OEvent.isSendGas]
    | ok txh =>
      cases env.updateOracleRes <;> simp [sentGasUpdate, OEvent.isSendGas]

/-- C2 witness: the amended trigger rule evaluated at an
exact-threshold boundary (lastPrice 1000, diffRatio 100000, precision
1000000, floor 1, suggested price 1100: delta is exactly 100). -/
theorem gasOracleUpdateTrigger_witness :
    sentGasUpdate (processGasPriceOracle 1 100000 1000000 1000 envC2w).1 =
      specGasUpdateCondition 1000 1 100000 1000000 1100 :=
  gasOracleUpdateTrigger 1 100000 1000000 1000 1100 envC2w
    { hash := "b-c2w", oracleStatus := .pending } rfl rfl rfl rfl
    (by decide) (by decide) (by decide) (by decide)

/-- C6 (confirmed): ProcessCommittedBatches never submits a finalize
transaction when the resolved proving status of the batch is anything other
than Verified. -/
theorem finalizeNeverSubmitsUnverified (env : FinalizeEnv) (hash : String)
    (batch : BlockBatch)
    (hres : resolvedBatch env = some (hash, batch))
    (hnv : batch.provingStatus ≠ .verified) :
    sendsFinalize (processCommittedBatches env) = false := by
  unfold processCommittedBatches
  rw [hres]
  cases hp : batch.provingStatus <;>
    simp_all [sendsFinalize, REvent.isSendFinalize]

/-- C6 witness: a batch whose proof is received but not yet verified
(Proved) triggers no finalize submission. -/
theorem finalizeNeverSubmitsUnverified_witness :
    sendsFinalize (processCommittedBatches envC6) = false :=
  finalizeNeverSubmitsUnverified envC6 "b-c6"
    { hash := "b-c6", provingStatus := .proved, createdAt := 500 } rfl (by decide)

/-- C7 (confirmed): when the previous finalizing/finalized batch is
more recent than the configured minimum interval, the Verified batch
is marked FinalizationSkipped and no finalize transaction is
submitted. -/
theorem finalizeRateLimited (env : FinalizeEnv) (hash : String)
    (batch prev : BlockBatch)
    (hres : resolvedBatch env = some (hash, batch))
    (hv : batch.provingStatus = .verified)
    (hprev : env.prevRes = .ok prev)
    (hrecent : batch.createdAt - prev.createdAt < env.finalizeIntervalSec) :
    processCommittedBatches env =
      [.updateSkippedBatches, .updateRollupStatus hash .finalizationSkipped] ∧
    sendsFinalize (processCommittedBatches env) = false := by
  have hmain : processCommittedBatches env =
      [.updateSkippedBatches, .updateRollupStatus hash .finalizationSkipped] := by
    unfold processCommittedBatches
    rw [hres]
    simp [hv, hprev, hrecent]
  exact ⟨hmain, by rw [hmain]; rfl⟩

/-- C7 witness: the rate limit evaluated concretely: previous batch 30
seconds old under a 60-second minimum interval. -/
theorem finalizeRateLimited_witness :
    processCommittedBatches envC7 =
      [.updateSkippedBatches, .updateRollupStatus "b-c7" .finalizationSkipped] ∧
    sendsFinalize (processCommittedBatches envC7) = false :=
  finalizeRateLimited envC7 "b-c7"
    { hash := "b-c7", provingStatus := .verified, createdAt := 130 }
    { hash := "b-prev", provingStatus := .verified, createdAt := 100 }
    rfl rfl rfl (by decide)

/-- C1 counterexample: a Verified batch whose stored proof buffer has
33 bytes is aborted without submission, but the deferred guard writes
the terminal FinalizationSkipped rollup status — the
rollupStatus does not stay unchanged as claimed. -/
theorem finalizeBadBufferCounterexample :
    REvent.updateRollupStatus "b-c1" .finalizationSkipped
        ∈ processCommittedBatches envC1 ∧
    sendsFinalize (processCommittedBatches envC1) = false := by
  decide

/-- C1 (amended): in the Verified branch, past the rate limit, if the
stored proof or public-input commitment buffer is missing or has byte
length not divisible by 32, the invocation submits no finalize
transaction and issues no Finalizing write, but the deferred guard
marks the batch FinalizationSkipped (a terminal rollup status), so the
batch is not retried as Committed next invocation. -/
theorem finalizeBadBuffersMarkSkipped (env : FinalizeEnv) (hash : String)
    (batch : BlockBatch) (bufs : Option (List Nat) × Option (List Nat))
    (hres : resolvedBatch env = some (hash, batch))
    (hv : batch.provingStatus = .verified)
    (hrl : rateLimitPasses env batch = true)
    (hp : env.proofRes = .ok bufs)
    (hbad : badBuffers bufs = true) :
    processCommittedBatches env =
      [.updateSkippedBatches, .updateRollupStatus hash .finalizationSkipped] := by
  have hbody : finalizeBody env hash = ([], false) := by
    unfold finalizeBody
    rw [hp]
    rcases bufs with ⟨pb, ic⟩
    cases pb with
    | none => rfl
    | some pbuf =>
      cases ic with
      | none => rfl
      | some icbuf =>
        cases h1 : (pbuf.length % 32 != 0) with
        | true => simp [h1]
        | false =>
          have h2 : (icbuf.length % 32 != 0) = true := by
            simp only [badBuffers, h1, Bool.false_or] at hbad
            exact hbad
          simp [h1, h2]
  unfold processCommittedBatches
  rw [hres]
  cases hpr : env.prevRes with
  | ok prev =>
    have hge : ¬ batch.createdAt - prev.createdAt < env.finalizeIntervalSec := by
      unfold rateLimitPasses at hrl
      rw [hpr] at hrl
      simp only [decide_eq_true_eq] at hrl
      omega
    simp [hv, hge, hbody]
  | error e =>
    cases e with
    | noRows => simp [hv, hbody]
    | other msg =>
      unfold rateLimitPasses at hrl
      rw [hpr] at hrl
      exact absurd hrl (by simp)

/-- C1 witness: the amended behaviour evaluated on a Verified batch
whose stored proof buffer is missing. -/
theorem finalizeBadBuffersMarkSkipped_witness :
    processCommittedBatches envC1w =
      [.updateSkippedBatches, .updateRollupStatus "b-c1w" .finalizationSkipped] :=
  finalizeBadBuffersMarkSkipped envC1w "b-c1w"
    { hash := "b-c1w", provingStatus := .verified, createdAt := 1000 }
    (none, some (List.replicate 32 0)) rfl rfl rfl rfl rfl

/-- C10 (confirmed): SendCommitTx is atomic with respect to send
failure: on any SendTransaction error no rollup status is written and
no commit-registry entry is inserted, and on success the Committing
write for every batch and the single registry insertion keyed by the
correlation ID come only after the send returned a transaction
hash. -/
theorem sendCommitTxAtomic (env : CommitEnv) (batchData : List CommitBatchData) :
    (∀ e, env.sendRes = .error e →
      (sendCommitTx env batchData).any CEvent.isCommitWrite = false) ∧
    (∀ txh, env.sendRes = .ok txh → env.packCommitOK = true → batchData ≠ [] →
      sendCommitTx env batchData =
        .sendCommitTx env.txID ::
          ((batchData.map fun b => .updateCommitTxHash b.hash txh .committing) ++
            [.storeCommitment env.txID (batchData.map fun b => b.hash)])) := by
  constructor
  · intro e he
    cases batchData with
    | nil => rfl
    | cons b bs =>
      cases hpk : env.packCommitOK <;>
        simp [sendCommitTx, he, hpk, CEvent.isCommitWrite]
  · intro txh ht hpk hne
    cases batchData with
    | nil => exact absurd rfl hne
    | cons b bs => simp [sendCommitTx, ht, hpk]

/-- C10 witness: the post-send write sequence evaluated on a
successful two-batch commit. -/
theorem sendCommitTxAtomic_witness :
    sendCommitTx envC10 batchesC10 =
      .sendCommitTx "0xid10" ::
        ((batchesC10.map fun b => .updateCommitTxHash b.hash "0xc10" .committing) ++
          [.storeCommitment "0xid10" (batchesC10.map fun b => b.hash)]) :=
  (sendCommitTxAtomic envC10 batchesC10).2 "0xc10" rfl rfl (by decide)

end Scroll
